import Mathlib

/-!
Verification development for the local bookkeeping engine of the
Inventory Ledger Pro+ repository (web-demo engine in `src/api.ts`,
per-entry balance folds in `src/App.tsx`, record shapes in `src/types.ts`).

Modelling conventions:
* JS numbers (quantities, prices, amounts) are embedded as `Rat`
  (real-valued arithmetic; the source performs ordinary `+ - * /` and
  `Math.max`), ids as `Nat`, ISO timestamps as `String`.
* `localStorage` persistence is implicit: every `local_*` operation takes
  the loaded `CanonicalState` plus the id counters and returns the state
  that would be saved. A thrown JS `Error` is an `Except.error`; since a
  throw happens before `saveState`, an error result leaves the persisted
  state unchanged by construction.
* `nowIso()` is passed in as the `now : String` argument.
* In-place mutation of an object obtained by `Array.prototype.find` is
  embedded as `mutateFirst` (rewrite the first matching element).
* `materialize` only re-sorts the collections for display and computes
  balances; operations here return the canonical state itself, and
  `computeBalances` is embedded separately.
-/

inductive TransactionKind where
  | IN
  | OUT
  | RETURN
deriving Repr, DecidableEq, BEq

structure Product where
  id : Nat
  name : String
  sku : Option String
  unit_price : Rat
  qty : Rat
  note : Option String
  low_stock_threshold : Rat
  created_at : String
deriving Repr, DecidableEq, BEq

structure Customer where
  id : Nat
  name : String
  phone : Option String
  note : Option String
  created_at : String
deriving Repr, DecidableEq, BEq

structure SaleRecord where
  id : Nat
  ts : String
  product_id : Nat
  product_name : String
  qty : Rat
  unit_price : Rat
  total_amount : Rat
  customer_id : Option Nat
  customer_name : Option String
  customer_phone : Option String
  note : Option String
  is_credit : Bool
  is_return : Bool
  origin_sale_id : Option Nat
deriving Repr, DecidableEq, BEq

structure StockMovement where
  id : Nat
  ts : String
  kind : TransactionKind
  product_id : Nat
  product_name : String
  qty : Rat
  unit_price : Option Rat
  total_amount : Option Rat
  counterparty : Option String
  customer_id : Option Nat
  customer_name : Option String
  note : Option String
  sale_id : Option Nat
deriving Repr, DecidableEq, BEq

structure CreditEntry where
  id : Nat
  ts : String
  customer_id : Nat
  customer_name : String
  customer_phone : Option String
  sale_id : Option Nat
  amount : Rat
  is_payment : Bool
  note : Option String
deriving Repr, DecidableEq, BEq

structure CustomerBalance where
  customer_id : Nat
  customer_name : String
  customer_phone : Option String
  total_credit : Rat
  total_paid : Rat
  outstanding : Rat
  last_activity : Option String
deriving Repr, DecidableEq, BEq

structure CanonicalState where
  products : List Product
  customers : List Customer
  sales : List SaleRecord
  stock_movements : List StockMovement
  credits : List CreditEntry
deriving Repr, DecidableEq, BEq

structure IdCounters where
  product : Nat
  customer : Nat
  sale : Nat
  stock : Nat
  credit : Nat
deriving Repr, DecidableEq, BEq

inductive IdKind where
  | product
  | customer
  | sale
  | stock
  | credit
deriving Repr, DecidableEq

/-- `bumpId(key)`: return the current counter value and the persisted
counters with that key incremented. -/
def bumpId (key : IdKind) (ids : IdCounters) : Nat × IdCounters :=
  match key with
  | .product => (ids.product, { ids with product := ids.product + 1 })
  | .customer => (ids.customer, { ids with customer := ids.customer + 1 })
  | .sale => (ids.sale, { ids with sale := ids.sale + 1 })
  | .stock => (ids.stock, { ids with stock := ids.stock + 1 })
  | .credit => (ids.credit, { ids with credit := ids.credit + 1 })

/-- Payload of `record_sale` (`SalePayload` in types.ts). -/
structure SalePayload where
  product_id : Nat
  qty : Rat
  unit_price : Option Rat
  customer_id : Option Nat
  note : Option String
  is_credit : Bool
deriving Repr, DecidableEq

/-- Payload of `record_return` (`ReturnPayload` in types.ts). -/
structure ReturnPayload where
  product_id : Nat
  customer_id : Option Nat
  qty : Rat
  note : Option String
  override_amount : Option Rat
deriving Repr, DecidableEq

/-- Payload of `record_stock_entry` (`StockEntryPayload` in types.ts). -/
structure StockEntryPayload where
  product_id : Nat
  qty : Rat
  kind : Option TransactionKind
  unit_price : Option Rat
  counterparty : Option String
  customer_id : Option Nat
  note : Option String
deriving Repr, DecidableEq

/-- Payload of `record_credit_payment` (`CreditPaymentPayload` in types.ts). -/
structure CreditPaymentPayload where
  customer_id : Nat
  amount : Rat
  note : Option String
deriving Repr, DecidableEq

/-- Payload of `update_sale` (`SaleUpdatePayload` in types.ts). -/
structure SaleUpdatePayload where
  id : Nat
  qty : Rat
  unit_price : Rat
  customer_id : Option Nat
  note : Option String
  is_credit : Bool
deriving Repr, DecidableEq

/-- Payload of `update_return` (`ReturnUpdatePayload` in types.ts). -/
structure ReturnUpdatePayload where
  id : Nat
  qty : Rat
  note : Option String
  override_amount : Option Rat
deriving Repr, DecidableEq

/-- Rewrite the first element satisfying `pred` with `f` (embedding of the
JS pattern `const x = arr.find(pred); if (x) mutate(x);`). -/
def mutateFirst {α : Type} (pred : α → Bool) (f : α → α) : List α → List α
  | [] => []
  | x :: xs => if pred x then f x :: xs else x :: mutateFirst pred f xs

/-- JS nullish coalescing `a ?? b` on two nullable values. -/
def jsCoalesce {α : Type} (a b : Option α) : Option α :=
  match a with
  | some x => some x
  | none => b

/-- The repeated JS fragment
`payload.customer_id != null ? state.customers.find(c => c.id === payload.customer_id)?.name ?? null : null`. -/
def customerNameOf (st : CanonicalState) (cid? : Option Nat) : Option String :=
  match cid? with
  | none => none
  | some cid => (st.customers.find? (fun c => c.id == cid)).map (fun c => c.name)

/-- Same lookup for the denormalized phone snapshot. -/
def customerPhoneOf (st : CanonicalState) (cid? : Option Nat) : Option String :=
  match cid? with
  | none => none
  | some cid => (st.customers.find? (fun c => c.id == cid)).bind (fun c => c.phone)

/-- `local_record_stock_entry` (api.ts): manual IN/OUT stock adjustment;
silent no-op when the product id resolves to nothing. -/
def local_record_stock_entry (payload : StockEntryPayload) (now : String)
    (ids : IdCounters) (st : CanonicalState) :
    Except String (CanonicalState × IdCounters) :=
  match st.products.find? (fun p => p.id == payload.product_id) with
  | none => .ok (st, ids)
  | some product =>
    let qty := payload.qty
    let kind := payload.kind.getD .IN
    let sign : Rat := if kind == .IN then 1 else -1
    let products := mutateFirst (fun p => p.id == payload.product_id)
      (fun p => { p with qty := max (p.qty + sign * qty) 0 }) st.products
    let (id, ids) := bumpId .stock ids
    let mv : StockMovement :=
      { id := id, ts := now, kind := kind, product_id := product.id,
        product_name := product.name, qty := qty,
        unit_price := payload.unit_price,
        total_amount := payload.unit_price.map (fun u => u * qty),
        counterparty := payload.counterparty,
        customer_id := payload.customer_id,
        customer_name := customerNameOf st payload.customer_id,
        note := payload.note, sale_id := none }
    .ok ({ st with products := products, stock_movements := mv :: st.stock_movements }, ids)

/-- `local_record_sale` (api.ts): silent no-op when the product id resolves
to nothing; otherwise clamps stock at 0 (`Math.max(product.qty - qty, 0)`),
records the sale and an OUT movement, and, when `is_credit` with a customer
attached, a charge credit entry.  The non-null assertion
`state.customers.find(...)!` in the credit block crashes (TypeError) when
the customer id resolves to nothing, which discards the in-memory state. -/
def local_record_sale (payload : SalePayload) (now : String)
    (ids : IdCounters) (st : CanonicalState) :
    Except String (CanonicalState × IdCounters) :=
  match st.products.find? (fun p => p.id == payload.product_id) with
  | none => .ok (st, ids)
  | some product =>
    let qty := payload.qty
    let unitPrice := payload.unit_price.getD product.unit_price
    let total := unitPrice * qty
    let products := mutateFirst (fun p => p.id == payload.product_id)
      (fun p => { p with qty := max (p.qty - qty) 0 }) st.products
    let (saleId, ids) := bumpId .sale ids
    let sale : SaleRecord :=
      { id := saleId, ts := now, product_id := product.id,
        product_name := product.name, qty := qty, unit_price := unitPrice,
        total_amount := total, customer_id := payload.customer_id,
        customer_name := customerNameOf st payload.customer_id,
        customer_phone := customerPhoneOf st payload.customer_id,
        note := payload.note, is_credit := payload.is_credit,
        is_return := false, origin_sale_id := none }
    let (stockId, ids) := bumpId .stock ids
    let mv : StockMovement :=
      { id := stockId, ts := now, kind := .OUT, product_id := product.id,
        product_name := product.name, qty := qty,
        unit_price := some unitPrice, total_amount := some total,
        counterparty := none, customer_id := payload.customer_id,
        customer_name := customerNameOf st payload.customer_id,
        note := payload.note, sale_id := some saleId }
    match payload.is_credit, payload.customer_id with
    | true, some cid =>
      match st.customers.find? (fun c => c.id == cid) with
      | none => .error "TypeError: cannot read properties of undefined"
      | some customer =>
        let (creditId, ids) := bumpId .credit ids
        let entry : CreditEntry :=
          { id := creditId, ts := now, customer_id := customer.id,
            customer_name := customer.name, customer_phone := customer.phone,
            sale_id := some saleId, amount := total, is_payment := false,
            note := payload.note }
        .ok ({ st with
            products := products, sales := sale :: st.sales,
            stock_movements := mv :: st.stock_movements,
            credits := entry :: st.credits }, ids)
    | _, _ =>
      .ok ({ st with
          products := products, sales := sale :: st.sales,
          stock_movements := mv :: st.stock_movements }, ids)

/-- `local_record_return` (api.ts): silent no-op when the product id
resolves to nothing; otherwise restocks unconditionally
(`product.qty = product.qty + qty`, no over-return validation), prices the
return at the product's current unit price unless an override amount is
supplied, records a return-flagged sale (with `origin_sale_id: null`) and a
RETURN movement, and, when a customer is attached, a settlement credit
entry (`is_payment: true`). -/
def local_record_return (payload : ReturnPayload) (now : String)
    (ids : IdCounters) (st : CanonicalState) :
    Except String (CanonicalState × IdCounters) :=
  match st.products.find? (fun p => p.id == payload.product_id) with
  | none => .ok (st, ids)
  | some product =>
    let qty := payload.qty
    let products := mutateFirst (fun p => p.id == payload.product_id)
      (fun p => { p with qty := p.qty + qty }) st.products
    let unitPrice :=
      match payload.override_amount with
      | some a => a / qty
      | none => product.unit_price
    let total := unitPrice * qty
    let (saleId, ids) := bumpId .sale ids
    let sale : SaleRecord :=
      { id := saleId, ts := now, product_id := product.id,
        product_name := product.name, qty := qty, unit_price := unitPrice,
        total_amount := total, customer_id := payload.customer_id,
        customer_name := customerNameOf st payload.customer_id,
        customer_phone := customerPhoneOf st payload.customer_id,
        note := payload.note, is_credit := false, is_return := true,
        origin_sale_id := none }
    let (stockId, ids) := bumpId .stock ids
    let mv : StockMovement :=
      { id := stockId, ts := now, kind := .RETURN, product_id := product.id,
        product_name := product.name, qty := qty,
        unit_price := some unitPrice, total_amount := some total,
        counterparty := none, customer_id := payload.customer_id,
        customer_name := customerNameOf st payload.customer_id,
        note := payload.note, sale_id := some saleId }
    match payload.customer_id with
    | some cid =>
      match st.customers.find? (fun c => c.id == cid) with
      | none => .error "TypeError: cannot read properties of undefined"
      | some customer =>
        let (creditId, ids) := bumpId .credit ids
        let entry : CreditEntry :=
          { id := creditId, ts := now, customer_id := customer.id,
            customer_name := customer.name, customer_phone := customer.phone,
            sale_id := some saleId, amount := total, is_payment := true,
            note := some (payload.note.getD "반품 정산") }
        .ok ({ st with
            products := products, sales := sale :: st.sales,
            stock_movements := mv :: st.stock_movements,
            credits := entry :: st.credits }, ids)
    | none =>
      .ok ({ st with
          products := products, sales := sale :: st.sales,
          stock_movements := mv :: st.stock_movements }, ids)

/-- `local_record_credit_payment` (api.ts): silent no-op when the customer
id resolves to nothing; otherwise records a free-standing payment entry. -/
def local_record_credit_payment (payload : CreditPaymentPayload) (now : String)
    (ids : IdCounters) (st : CanonicalState) :
    Except String (CanonicalState × IdCounters) :=
  match st.customers.find? (fun c => c.id == payload.customer_id) with
  | none => .ok (st, ids)
  | some customer =>
    let (creditId, ids) := bumpId .credit ids
    let entry : CreditEntry :=
      { id := creditId, ts := now, customer_id := customer.id,
        customer_name := customer.name, customer_phone := customer.phone,
        sale_id := none, amount := payload.amount, is_payment := true,
        note := payload.note }
    .ok ({ st with credits := entry :: st.credits }, ids)

/-- `local_update_sale` (api.ts): rejects returns (`ReturnImmutable`) and
sales with a return whose `origin_sale_id` points at them; rejects a qty
increase exceeding current stock; otherwise adjusts stock by the delta and
synchronizes the linked OUT movement and charge credit entry. -/
def local_update_sale (payload : SaleUpdatePayload) (now : String)
    (ids : IdCounters) (st : CanonicalState) :
    Except String (CanonicalState × IdCounters) :=
  match st.sales.find? (fun s => s.id == payload.id) with
  | none => .ok (st, ids)
  | some sale =>
    if sale.is_return then .error "반품 내역은 수정할 수 없습니다."
    else if st.sales.any (fun s => s.is_return && s.origin_sale_id == some sale.id) then
      .error "반품이 등록된 판매는 수정할 수 없습니다."
    else
      match st.products.find? (fun p => p.id == sale.product_id) with
      | none => .ok (st, ids)
      | some product =>
        let qtyDelta := payload.qty - sale.qty
        if 0 < qtyDelta ∧ product.qty < qtyDelta then
          .error "재고가 부족합니다."
        else
          let products := mutateFirst (fun p => p.id == sale.product_id)
            (fun p => { p with qty := p.qty - qtyDelta }) st.products
          let sale' : SaleRecord :=
            { sale with
              qty := payload.qty, unit_price := payload.unit_price,
              total_amount := payload.unit_price * payload.qty,
              customer_id := payload.customer_id,
              customer_name := customerNameOf st payload.customer_id,
              customer_phone := customerPhoneOf st payload.customer_id,
              note := payload.note, is_credit := payload.is_credit }
          let sales := mutateFirst (fun s => s.id == payload.id)
            (fun _ => sale') st.sales
          let stock_movements := mutateFirst
            (fun m => m.sale_id == some sale.id && m.kind == TransactionKind.OUT)
            (fun m => { m with
              qty := sale'.qty,
              unit_price := some sale'.unit_price,
              total_amount := some sale'.total_amount,
              customer_id := sale'.customer_id,
              customer_name := sale'.customer_name, note := sale'.note })
            st.stock_movements
          let base := { st with
            products := products, sales := sales,
            stock_movements := stock_movements }
          if sale'.is_credit then
            match st.credits.find? (fun cr => cr.sale_id == some sale.id && !cr.is_payment) with
            | some _ =>
              let credits := mutateFirst
                (fun cr => cr.sale_id == some sale.id && !cr.is_payment)
                (fun cr => { cr with
                  amount := sale'.total_amount,
                  customer_id := sale'.customer_id.getD cr.customer_id,
                  customer_name := sale'.customer_name.getD cr.customer_name,
                  customer_phone := jsCoalesce sale'.customer_phone cr.customer_phone })
                st.credits
              .ok ({ base with credits := credits }, ids)
            | none =>
              match sale'.customer_id with
              | some cid =>
                let (creditId, ids) := bumpId .credit ids
                let entry : CreditEntry :=
                  { id := creditId, ts := now, customer_id := cid,
                    customer_name := sale'.customer_name.getD "",
                    customer_phone := sale'.customer_phone,
                    sale_id := some sale.id, amount := sale'.total_amount,
                    is_payment := false, note := sale'.note }
                .ok ({ base with credits := entry :: st.credits }, ids)
              | none => .ok (base, ids)
          else
            .ok ({ base with credits :=
              st.credits.filter (fun cr => !(cr.sale_id == some sale.id && !cr.is_payment)) }, ids)

/-- `local_delete_sale` (api.ts): same guards as `local_update_sale`; on
success restores stock and removes the sale with its linked movement and
charge credit entry. -/
def local_delete_sale (saleId : Nat) (_now : String)
    (ids : IdCounters) (st : CanonicalState) :
    Except String (CanonicalState × IdCounters) :=
  match st.sales.find? (fun s => s.id == saleId) with
  | none => .ok (st, ids)
  | some sale =>
    if sale.is_return then .error "반품 내역은 삭제할 수 없습니다."
    else if st.sales.any (fun s => s.is_return && s.origin_sale_id == some sale.id) then
      .error "반품이 등록된 판매는 삭제할 수 없습니다."
    else
      let products := mutateFirst (fun p => p.id == sale.product_id)
        (fun p => { p with qty := p.qty + sale.qty }) st.products
      let stock_movements := st.stock_movements.filter (fun m => m.sale_id != some sale.id)
      let credits := st.credits.filter (fun cr => !(cr.sale_id == some sale.id && !cr.is_payment))
      let sales := st.sales.filter (fun s => s.id != sale.id)
      .ok ({ st with
          products := products, sales := sales,
          stock_movements := stock_movements, credits := credits }, ids)

/-- `local_update_return` (api.ts): adjusts stock by the qty delta (note:
no floor here, unlike `local_delete_return`), rewrites the return row and
its RETURN movement in place, and appends a signed adjustment credit entry
when the total changed and a customer is attached. -/
def local_update_return (payload : ReturnUpdatePayload) (now : String)
    (ids : IdCounters) (st : CanonicalState) :
    Except String (CanonicalState × IdCounters) :=
  match st.sales.find? (fun s => s.id == payload.id && s.is_return) with
  | none => .ok (st, ids)
  | some ret =>
    match st.products.find? (fun p => p.id == ret.product_id) with
    | none => .ok (st, ids)
    | some _ =>
      let prevTotal := ret.total_amount
      let prevQty := ret.qty
      let qtyDelta := payload.qty - prevQty
      let products := mutateFirst (fun p => p.id == ret.product_id)
        (fun p => { p with qty := p.qty + qtyDelta }) st.products
      let unit :=
        match payload.override_amount with
        | some a => a / payload.qty
        | none => ret.unit_price
      let total := unit * payload.qty
      let ret' : SaleRecord :=
        { ret with
          qty := payload.qty, unit_price := unit,
          total_amount := total, note := jsCoalesce payload.note ret.note }
      let sales := mutateFirst (fun s => s.id == payload.id && s.is_return)
        (fun _ => ret') st.sales
      let stock_movements := mutateFirst
        (fun m => m.sale_id == some ret.id && m.kind == TransactionKind.RETURN)
        (fun m => { m with
          qty := ret'.qty, unit_price := some ret'.unit_price,
          total_amount := some ret'.total_amount, note := ret'.note })
        st.stock_movements
      let diff := total - prevTotal
      let base := { st with
          products := products, sales := sales,
          stock_movements := stock_movements }
      match ret.customer_id with
      | some cid =>
        if diff ≠ 0 then
          let (creditId, ids) := bumpId .credit ids
          let entry : CreditEntry :=
            { id := creditId, ts := now, customer_id := cid,
              customer_name := ret.customer_name.getD "",
              customer_phone := ret.customer_phone, sale_id := some ret.id,
              amount := |diff|, is_payment := decide (0 < diff),
              note := some "반품 수정 조정" }
          .ok ({ base with credits := entry :: st.credits }, ids)
        else .ok (base, ids)
      | none => .ok (base, ids)

/-- `local_delete_return` (api.ts): removes the return row and its linked
movements, takes the returned qty back out of stock (floored at 0), and,
when a customer is attached, appends a charge credit entry reinstating the
full return amount; the original settlement entry is never removed. -/
def local_delete_return (returnId : Nat) (now : String)
    (ids : IdCounters) (st : CanonicalState) :
    Except String (CanonicalState × IdCounters) :=
  match st.sales.find? (fun s => s.id == returnId && s.is_return) with
  | none => .ok (st, ids)
  | some ret =>
    let products := mutateFirst (fun p => p.id == ret.product_id)
      (fun p => { p with qty := max (p.qty - ret.qty) 0 }) st.products
    let stock_movements := st.stock_movements.filter (fun m => m.sale_id != some ret.id)
    match ret.customer_id with
    | some cid =>
      let (creditId, ids) := bumpId .credit ids
      let entry : CreditEntry :=
        { id := creditId, ts := now, customer_id := cid,
          customer_name := ret.customer_name.getD "",
          customer_phone := ret.customer_phone, sale_id := none,
          amount := ret.total_amount, is_payment := false,
          note := some "반품 삭제 조정" }
      let sales := st.sales.filter (fun s => s.id != ret.id)
      .ok ({ st with
          products := products, sales := sales,
          stock_movements := stock_movements,
          credits := entry :: st.credits }, ids)
    | none =>
      let sales := st.sales.filter (fun s => s.id != ret.id)
      .ok ({ st with
          products := products, sales := sales,
          stock_movements := stock_movements }, ids)

/-- JS `<` on strings: lexicographic comparison of the code-unit
sequences (used on ISO timestamps, where it is chronological order). -/
def charListLt : List Char → List Char → Bool
  | [], [] => false
  | [], _ :: _ => true
  | _ :: _, [] => false
  | a :: as, b :: bs => if a < b then true else if b < a then false else charListLt as bs

/-- JS string comparison `a < b`. -/
def jsStrLt (a b : String) : Bool := charListLt a.data b.data

/-- Fresh per-customer balance row seeded by `computeBalances`
(`state.customers.forEach` block in api.ts). -/
def initBal (c : Customer) : CustomerBalance :=
  { customer_id := c.id, customer_name := c.name, customer_phone := c.phone,
    total_credit := 0, total_paid := 0, outstanding := 0,
    last_activity := none }

/-- One step of the `state.credits.forEach` block of `computeBalances`:
accumulate an entry's amount into the running totals and refresh
`last_activity`. -/
def applyCredit (e : CustomerBalance) (cr : CreditEntry) : CustomerBalance :=
  let e1 :=
    if cr.is_payment then { e with total_paid := e.total_paid + cr.amount }
    else { e with total_credit := e.total_credit + cr.amount }
  match e1.last_activity with
  | none => { e1 with last_activity := some cr.ts }
  | some t => if jsStrLt t cr.ts then { e1 with last_activity := some cr.ts } else e1

/-- JS `Map.prototype.set` on an association list: replace the first
binding of the key in place, else append at the end. -/
def msSet : List (Nat × CustomerBalance) → Nat → CustomerBalance →
    List (Nat × CustomerBalance)
  | [], k, v => [(k, v)]
  | kv :: rest, k, v =>
    if kv.1 == k then (k, v) :: rest else kv :: msSet rest k v

/-- JS `Map.prototype.get` on an association list. -/
def msGet? (m : List (Nat × CustomerBalance)) (k : Nat) : Option CustomerBalance :=
  (m.find? (fun kv => kv.1 == k)).map (fun kv => kv.2)

/-- One iteration of the `state.credits.forEach` loop of `computeBalances`:
entries whose customer is not in the map are skipped. -/
def creditStep (m : List (Nat × CustomerBalance)) (cr : CreditEntry) :
    List (Nat × CustomerBalance) :=
  match msGet? m cr.customer_id with
  | none => m
  | some e => msSet m cr.customer_id (applyCredit e cr)

/-- `computeBalances` (api.ts): seed a map keyed by customer id, fold the
credit history into the totals, then set
`outstanding = Math.max(total_credit - total_paid, 0)` on every row. -/
def computeBalances (st : CanonicalState) : List CustomerBalance :=
  let m0 := st.customers.foldl (fun m c => msSet m c.id (initBal c)) []
  let m1 := st.credits.foldl creditStep m0
  m1.map (fun kv => { kv.2 with outstanding := max (kv.2.total_credit - kv.2.total_paid) 0 })

/-- Inner per-customer loop of `creditOutstandingById` (App.tsx): running
outstanding over a customer's chronologically ordered credit entries,
where payments subtract floored at 0 and charges add; the input list is
one customer's entries already in `(ts, id)` order.  The terminal fold
value is the balance after the last entry.  `creditFoldStep` is the loop
body: payments subtract floored at 0, charges add. -/
def creditFoldStep (outstanding : Rat) (e : CreditEntry) : Rat :=
  if e.is_payment then max (outstanding - e.amount) 0
  else outstanding + e.amount

/-- The loop itself: terminal value of the left fold from 0. -/
def foldOutstanding (entries : List CreditEntry) : Rat :=
  entries.foldl creditFoldStep 0

/-- Sum of the amounts of the non-payment (charge) entries of a list. -/
def chargeTot (entries : List CreditEntry) : Rat :=
  ((entries.filter (fun e => !e.is_payment)).map (fun e => e.amount)).sum

/-- Sum of the amounts of the payment entries of a list. -/
def payTot (entries : List CreditEntry) : Rat :=
  ((entries.filter (fun e => e.is_payment)).map (fun e => e.amount)).sum

/-- Charge sum of one customer's entries (claim C6's `total_credit`). -/
def chargeSum (crs : List CreditEntry) (k : Nat) : Rat :=
  chargeTot (crs.filter (fun cr => cr.customer_id == k))

/-- Payment sum of one customer's entries (claim C6's `total_paid`). -/
def paySum (crs : List CreditEntry) (k : Nat) : Rat :=
  payTot (crs.filter (fun cr => cr.customer_id == k))

/-- Spec-side definition (glossary "allocatable remainder"): for a
(customer, product) pair, the total matching non-return sale qty minus the
total matching return qty.  Used only to state claims C1/C4; the engine in
api.ts never computes it. -/
def allocatableRemainder (st : CanonicalState) (cid? : Option Nat) (pid : Nat) : Rat :=
  (((st.sales.filter
      (fun s => !s.is_return && s.product_id == pid && s.customer_id == cid?)).map
      (fun s => s.qty)).sum)
  - (((st.sales.filter
      (fun s => s.is_return && s.product_id == pid && s.customer_id == cid?)).map
      (fun s => s.qty)).sum)

/-- Concrete product fixture: id 1, unit price 10, qty 0. -/
def c1_product : Product :=
  { id := 1, name := "P", sku := none, unit_price := 10, qty := 0,
    note := none, low_stock_threshold := 0, created_at := "2024-01-01" }

/-- Concrete state for claim C1: one product, no customers, no sales, so
the allocatable remainder of every (customer, product) pair is 0. -/
def c1_state : CanonicalState :=
  { products := [c1_product], customers := [], sales := [],
    stock_movements := [], credits := [] }

/-- Id counters matching `c1_state`. -/
def c1_ids : IdCounters :=
  { product := 2, customer := 1, sale := 1, stock := 1, credit := 1 }

/-- A return request of qty 1 against the empty pair of `c1_state`. -/
def c1_payload : ReturnPayload :=
  { product_id := 1, customer_id := none, qty := 1, note := none,
    override_amount := none }

/-- Product fixture for claim C3: current unit price 10. -/
def c3_product : Product :=
  { id := 1, name := "P", sku := none, unit_price := 10, qty := 0,
    note := none, low_stock_threshold := 0, created_at := "2024-01-01" }

/-- Customer fixture for claim C3. -/
def c3_customer : Customer :=
  { id := 1, name := "A", phone := some "010", note := none,
    created_at := "2024-01-01" }

/-- Claim C3's sale S1: qty 3 at unit price 10, earlier timestamp. -/
def c3_sale1 : SaleRecord :=
  { id := 1, ts := "2024-01-01T00:00:00.000Z", product_id := 1,
    product_name := "P", qty := 3, unit_price := 10, total_amount := 30,
    customer_id := some 1, customer_name := some "A",
    customer_phone := some "010", note := none, is_credit := false,
    is_return := false, origin_sale_id := none }

/-- Claim C3's sale S2: qty 2 at unit price 12, later timestamp. -/
def c3_sale2 : SaleRecord :=
  { c3_sale1 with
    id := 2, ts := "2024-01-02T00:00:00.000Z", qty := 2,
    unit_price := 12, total_amount := 24 }

/-- Claim C3's state: S1 and S2 for the pair (customer 1, product 1), no
prior returns. -/
def c3_state : CanonicalState :=
  { products := [c3_product], customers := [c3_customer],
    sales := [c3_sale2, c3_sale1], stock_movements := [], credits := [] }

/-- Id counters matching `c3_state`. -/
def c3_ids : IdCounters :=
  { product := 2, customer := 2, sale := 3, stock := 1, credit := 1 }

/-- Claim C3's request: return qty 4 for (customer 1, product 1). -/
def c3_payload : ReturnPayload :=
  { product_id := 1, customer_id := some 1, qty := 4, note := none,
    override_amount := none }

/-- Base state for claim C2: a single product with qty 0. -/
def c2_state : CanonicalState :=
  { products := [{
      id := 1, name := "P", sku := none, unit_price := 10,
      qty := 0, note := none, low_stock_threshold := 0,
      created_at := "2024-01-01" }],
    customers := [], sales := [], stock_movements := [], credits := [] }

/-- Id counters matching `c2_state`. -/
def c2_ids : IdCounters :=
  { product := 2, customer := 1, sale := 1, stock := 1, credit := 1 }

/-- Claim C2 step 1: a return of qty 5 (restocks the product to 5). -/
def c2_return : ReturnPayload :=
  { product_id := 1, customer_id := none, qty := 5, note := none,
    override_amount := none }

/-- Claim C2 step 2: a manual OUT movement of qty 5 (stock back to 0). -/
def c2_out : StockEntryPayload :=
  { product_id := 1, qty := 5, kind := some .OUT, unit_price := none,
    counterparty := none, customer_id := none, note := none }

/-- Claim C2 step 3: shrink the return to qty 1 (delta −4 applied to a
stock of 0 with no floor). -/
def c2_upd : ReturnUpdatePayload :=
  { id := 1, qty := 1, note := none, override_amount := none }

/-- Base state for claim C4: product with stock 10 and one customer. -/
def c4_state : CanonicalState :=
  { products := [{
      id := 1, name := "P", sku := none, unit_price := 10,
      qty := 10, note := none, low_stock_threshold := 0,
      created_at := "2024-01-01" }],
    customers := [{
      id := 1, name := "A", phone := some "010", note := none,
      created_at := "2024-01-01" }],
    sales := [], stock_movements := [], credits := [] }

/-- Id counters matching `c4_state`. -/
def c4_ids : IdCounters :=
  { product := 2, customer := 2, sale := 1, stock := 1, credit := 1 }

/-- Claim C4 setup: record a sale of qty 3 for (customer 1, product 1),
then a return of qty 2 against the same pair via `local_record_return`
(which stores `origin_sale_id: null`). -/
def c4_after : Except String (CanonicalState × IdCounters) :=
  (local_record_sale
    { product_id := 1, qty := 3, unit_price := none, customer_id := some 1,
      note := none, is_credit := false } "2024-01-01T01:00:00.000Z" c4_ids c4_state).bind
    (fun r => local_record_return
      { product_id := 1, customer_id := some 1, qty := 2, note := none,
        override_amount := none } "2024-01-01T02:00:00.000Z" r.2 r.1)

/-- Product fixture for claims C5/C10. -/
def c5_product : Product :=
  { id := 1, name := "P", sku := none, unit_price := 10, qty := 5,
    note := none, low_stock_threshold := 0, created_at := "2024-01-01" }

/-- State for claim C5/C10: one product (id 1), no customers. -/
def c5_state : CanonicalState :=
  { products := [c5_product], customers := [], sales := [],
    stock_movements := [], credits := [] }

/-- Id counters matching `c5_state`. -/
def c5_ids : IdCounters :=
  { product := 2, customer := 1, sale := 1, stock := 1, credit := 1 }

/-- A sale request naming a product id (99) that matches no product. -/
def c5_missing : SalePayload :=
  { product_id := 99, qty := 1, unit_price := none, customer_id := none,
    note := none, is_credit := true }

/-- A credit sale request with no customer attached. -/
def c5_credit_nocust : SalePayload :=
  { product_id := 1, qty := 1, unit_price := none, customer_id := none,
    note := none, is_credit := true }

/-- A cash sale request naming a customer id (99) that matches no
customer (claim C10). -/
def c10_badcust : SalePayload :=
  { product_id := 1, qty := 1, unit_price := none, customer_id := some 99,
    note := none, is_credit := false }

/-- Product fixture for claim C9: stock 2. -/
def c9_product : Product :=
  { id := 1, name := "P", sku := none, unit_price := 10, qty := 2,
    note := none, low_stock_threshold := 0, created_at := "2024-01-01" }

/-- Sale fixture for claim C9: existing non-return sale of qty 3. -/
def c9_sale : SaleRecord :=
  { id := 1, ts := "2024-01-01T00:00:00.000Z", product_id := 1,
    product_name := "P", qty := 3, unit_price := 10, total_amount := 30,
    customer_id := none, customer_name := none, customer_phone := none,
    note := none, is_credit := false, is_return := false,
    origin_sale_id := none }

/-- State for claim C9. -/
def c9_state : CanonicalState :=
  { products := [c9_product], customers := [], sales := [c9_sale],
    stock_movements := [], credits := [] }

/-- Id counters matching `c9_state`. -/
def c9_ids : IdCounters :=
  { product := 2, customer := 1, sale := 2, stock := 1, credit := 1 }

/-- Claim C9's update: grow the sale from qty 3 to qty 6 (delta 3 exceeds
the stock of 2). -/
def c9_upd : SaleUpdatePayload :=
  { id := 1, qty := 6, unit_price := 10, customer_id := none, note := none,
    is_credit := false }

/-- Claim C9's contrasting fresh sale: oversell qty 99 against stock 2. -/
def c9_sale_pl : SalePayload :=
  { product_id := 1, qty := 99, unit_price := none, customer_id := none,
    note := none, is_credit := false }

/-- Product fixture for claim C8: stock 3. -/
def c8_product : Product :=
  { id := 1, name := "P", sku := none, unit_price := 10, qty := 3,
    note := none, low_stock_threshold := 0, created_at := "2024-01-01" }

/-- Return fixture for claim C8: qty 5, total 50, customer 1 attached. -/
def c8_return : SaleRecord :=
  { id := 2, ts := "2024-01-02T00:00:00.000Z", product_id := 1,
    product_name := "P", qty := 5, unit_price := 10, total_amount := 50,
    customer_id := some 1, customer_name := some "A",
    customer_phone := some "010", note := none, is_credit := false,
    is_return := true, origin_sale_id := none }

/-- The return's settlement credit entry (is_payment = true). -/
def c8_settlement : CreditEntry :=
  { id := 1, ts := "2024-01-02T00:00:00.000Z", customer_id := 1,
    customer_name := "A", customer_phone := some "010", sale_id := some 2,
    amount := 50, is_payment := true, note := some "반품 정산" }

/-- The return's linked RETURN stock movement. -/
def c8_movement : StockMovement :=
  { id := 1, ts := "2024-01-02T00:00:00.000Z", kind := .RETURN,
    product_id := 1, product_name := "P", qty := 5, unit_price := some 10,
    total_amount := some 50, counterparty := none, customer_id := some 1,
    customer_name := some "A", note := none, sale_id := some 2 }

/-- State for claim C8: the return with its settlement entry and linked
movement. -/
def c8_state : CanonicalState :=
  { products := [c8_product],
    customers := [{
      id := 1, name := "A", phone := some "010", note := none,
      created_at := "2024-01-01" }],
    sales := [c8_return], stock_movements := [c8_movement],
    credits := [c8_settlement] }

/-- Id counters matching `c8_state`. -/
def c8_ids : IdCounters :=
  { product := 2, customer := 2, sale := 3, stock := 2, credit := 2 }

/-- Claim C7's customer. -/
def c7_customer : Customer :=
  { id := 1, name := "A", phone := some "010", note := none,
    created_at := "2024-01-01" }

/-- Claim C7's history, chronologically: charge 5, payment 10, charge 5. -/
def c7_e1 : CreditEntry :=
  { id := 1, ts := "2024-01-01T00:00:00.000Z", customer_id := 1,
    customer_name := "A", customer_phone := some "010", sale_id := none,
    amount := 5, is_payment := false, note := none }

/-- Second entry: an over-payment of 10 (the fold floors at 0 here). -/
def c7_e2 : CreditEntry :=
  { c7_e1 with
    id := 2, ts := "2024-01-02T00:00:00.000Z", amount := 10,
    is_payment := true }

/-- Third entry: another charge of 5. -/
def c7_e3 : CreditEntry :=
  { c7_e1 with id := 3, ts := "2024-01-03T00:00:00.000Z" }

/-- State for claim C7: one customer with the three entries. -/
def c7_state : CanonicalState :=
  { products := [], customers := [c7_customer], sales := [],
    stock_movements := [], credits := [c7_e1, c7_e2, c7_e3] }

/-- Claim C6's customer. -/
def c6_customer : Customer :=
  { id := 1, name := "A", phone := some "010", note := none,
    created_at := "2024-01-01" }

/-- Claim C6's charge entry: 30. -/
def c6_charge : CreditEntry :=
  { id := 1, ts := "2024-01-01T00:00:00.000Z", customer_id := 1,
    customer_name := "A", customer_phone := some "010", sale_id := some 1,
    amount := 30, is_payment := false, note := none }

/-- Claim C6's payment entry: 10. -/
def c6_payment : CreditEntry :=
  { c6_charge with
    id := 2, ts := "2024-01-02T00:00:00.000Z", amount := 10,
    is_payment := true, sale_id := none }

/-- State for claim C6: one customer, a charge of 30 and a payment of 10. -/
def c6_state : CanonicalState :=
  { products := [], customers := [c6_customer], sales := [],
    stock_movements := [], credits := [c6_charge, c6_payment] }

/-- The balance row `computeBalances` produces for `c6_state`. -/
def c6_bal : CustomerBalance :=
  { customer_id := 1, customer_name := "A", customer_phone := some "010",
    total_credit := 30, total_paid := 10, outstanding := 20,
    last_activity := some "2024-01-02T00:00:00.000Z" }

section Proofs

attribute [local semireducible] Rat.add Rat.sub Rat.mul Rat.inv

/-- Rewriting the first match keeps it findable: if `find?` locates `a` and
`f` preserves the predicate, then after `mutateFirst` the same search
returns `f a`. -/
theorem mutateFirst_find? {α : Type} (pred : α → Bool) (f : α → α)
    (l : List α) (a : α) (h : l.find? pred = some a) (hf : pred (f a) = true) :
    (mutateFirst pred f l).find? pred = some (f a) := by
  induction l with
  | nil => simp at h
  | cons x xs ih =>
    by_cases hx : pred x
    · rw [List.find?_cons_of_pos _ hx] at h
      cases h
      simp [mutateFirst, hx, List.find?_cons_of_pos _ hf]
    · rw [List.find?_cons_of_neg _ (by simp [hx])] at h
      simp only [mutateFirst, hx, if_neg, Bool.false_eq_true, not_false_eq_true, ite_false]
      rw [List.find?_cons_of_neg _ (by simp [hx])]
      exact ih h

/-- C1 (amended form): `local_record_return` performs no over-return
validation.  Even when the requested qty strictly exceeds the allocatable
remainder for the (customer, product) pair, the operation succeeds (no
`OverReturn` error), increases the product's qty by the requested qty and
prepends a new return-flagged sale; the over-return rejection exists only
in the UI submit handler, not in the engine. -/
theorem record_return_ignores_overreturn
    (payload : ReturnPayload) (now : String) (ids : IdCounters) (st : CanonicalState)
    (prod : Product)
    (hp : st.products.find? (fun p => p.id == payload.product_id) = some prod)
    (hover : allocatableRemainder st payload.customer_id payload.product_id < payload.qty)
    (hc : ∀ cid, payload.customer_id = some cid →
      (st.customers.find? (fun c => c.id == cid)).isSome = true) :
    ∃ st' ids', local_record_return payload now ids st = .ok (st', ids') ∧
      st'.products.find? (fun p => p.id == payload.product_id) =
        some { prod with qty := prod.qty + payload.qty } ∧
      ∃ r, st'.sales = r :: st.sales ∧ r.is_return = true ∧ r.qty = payload.qty := by
  have hpred := List.find?_some hp
  have hfind := mutateFirst_find? (fun p => p.id == payload.product_id)
    (fun p => { p with qty := p.qty + payload.qty }) st.products prod hp
    (by simpa using hpred)
  unfold local_record_return
  cases hcid : payload.customer_id with
  | none =>
    simp only [hp, hcid]
    refine ⟨_, _, rfl, ?_, ?_⟩
    · simpa using hfind
    · exact ⟨_, rfl, rfl, rfl⟩
  | some cid =>
    obtain ⟨customer, hcust⟩ := Option.isSome_iff_exists.mp (hc cid hcid)
    simp only [hp, hcid, hcust]
    refine ⟨_, _, rfl, ?_, ?_⟩
    · simpa using hfind
    · exact ⟨_, rfl, rfl, rfl⟩

/-- C1 (counterexample): in `c1_state` the allocatable remainder for the
requested pair is 0 < 1, yet `local_record_return` of qty 1 succeeds —
returning a changed snapshot (product restocked to qty 1, one new return
sale) — instead of failing with `OverReturn` and leaving the entities
unchanged. -/
theorem c1_counterexample :
    allocatableRemainder c1_state none 1 < 1 ∧
    (local_record_return c1_payload "2024-01-02T00:00:00.000Z" c1_ids c1_state).toOption.map
      (fun r => (r.1.products.map (fun p => p.qty), r.1.sales.length)) =
      some ([1], 1) := by
  constructor
  · decide
  · decide

/-- C1 (witness): the amended theorem applied at the concrete fixture. -/
theorem c1_witness :
    ∃ st' ids',
      local_record_return c1_payload "2024-01-02T00:00:00.000Z" c1_ids c1_state = .ok (st', ids') ∧
      st'.products.find? (fun p => p.id == c1_payload.product_id) =
        some { c1_product with qty := c1_product.qty + c1_payload.qty } ∧
      ∃ r, st'.sales = r :: c1_state.sales ∧ r.is_return = true ∧ r.qty = c1_payload.qty :=
  record_return_ignores_overreturn c1_payload "2024-01-02T00:00:00.000Z" c1_ids c1_state
    c1_product (by decide) (by decide) (fun cid h => nomatch h)

/-- C3 (amended form): without an override amount, `local_record_return`
prices the whole return at the product's current unit price — the created
return sale carries `unit_price = product.unit_price` and
`total_amount = product.unit_price * qty` — not at the per-sale FIFO
prices of the consumed sales; the oldest-first per-sale breakdown exists
only as the UI preview (`previewReturnAmount` in App.tsx). -/
theorem record_return_prices_at_product_price
    (payload : ReturnPayload) (now : String) (ids : IdCounters) (st : CanonicalState)
    (prod : Product)
    (hp : st.products.find? (fun p => p.id == payload.product_id) = some prod)
    (hov : payload.override_amount = none)
    (hc : ∀ cid, payload.customer_id = some cid →
      (st.customers.find? (fun c => c.id == cid)).isSome = true) :
    ∃ st' ids' r, local_record_return payload now ids st = .ok (st', ids') ∧
      st'.sales = r :: st.sales ∧
      r.unit_price = prod.unit_price ∧
      r.total_amount = prod.unit_price * payload.qty := by
  unfold local_record_return
  cases hcid : payload.customer_id with
  | none =>
    simp only [hp, hcid, hov]
    exact ⟨_, _, _, rfl, rfl, rfl, rfl⟩
  | some cid =>
    obtain ⟨customer, hcust⟩ := Option.isSome_iff_exists.mp (hc cid hcid)
    simp only [hp, hcid, hov, hcust]
    exact ⟨_, _, _, rfl, rfl, rfl, rfl⟩

/-- C3 (counterexample): in the claim's scenario (S1 qty 3 @10 earlier, S2
qty 2 @12 later, no prior returns, product's current price 10), a return
of qty 4 records a total amount of 40 = 10 × 4, not the FIFO amount 42. -/
theorem c3_counterexample :
    (local_record_return c3_payload "2024-01-03T00:00:00.000Z" c3_ids c3_state).toOption.map
      (fun r => r.1.sales.head?.map (fun s => s.total_amount)) = some (some 40) ∧
    (40 : Rat) ≠ 42 := by
  constructor
  · decide
  · decide

/-- C3 (witness): the amended theorem applied at the claim's scenario. -/
theorem c3_witness :
    ∃ st' ids' r,
      local_record_return c3_payload "2024-01-03T00:00:00.000Z" c3_ids c3_state = .ok (st', ids') ∧
      st'.sales = r :: c3_state.sales ∧
      r.unit_price = c3_product.unit_price ∧
      r.total_amount = c3_product.unit_price * c3_payload.qty :=
  record_return_prices_at_product_price c3_payload "2024-01-03T00:00:00.000Z" c3_ids c3_state
    c3_product (by decide) (by decide)
    (fun cid h => by
      have h1 : cid = 1 := by
        have h' : (some 1 : Option Nat) = some cid := h
        exact (Option.some.inj h').symm
      subst h1
      decide)

/-- C2 (failing input, code bug): starting from a product with qty 0, the
sequence record_return(qty 5) → record_stock_entry(OUT, qty 5) →
update_return(qty 1) — all successful — leaves the product at qty −4 < 0:
`local_update_return` applies the qty delta without the
`Math.max(..., 0)` floor used by every other stock mutation, violating the
claimed non-negativity invariant. -/
theorem c2_negative_stock :
    (((local_record_return c2_return "2024-01-01T01:00:00.000Z" c2_ids c2_state).bind
        (fun r => local_record_stock_entry c2_out "2024-01-01T02:00:00.000Z" r.2 r.1)).bind
        (fun r => local_update_return c2_upd "2024-01-01T03:00:00.000Z" r.2 r.1)).toOption.map
      (fun r => r.1.products.map (fun p => p.qty)) = some [-4] ∧
    (-4 : Rat) < 0 := by
  constructor
  · decide
  · decide

/-- C4 (failing input, code bug): after `c4_after` the return has consumed
2 of the sale's 3 units (allocatable remainder 1), yet `local_delete_sale`
of the sale succeeds — removing it and restocking — and `local_update_sale`
shrinking its qty to 1 (below the 2 consumed units) also succeeds, because
the `SaleHasReturns` guard matches `origin_sale_id`, which
`local_record_return` always stores as `null`; neither operation fails. -/
theorem c4_guard_never_fires :
    c4_after.toOption.map (fun r => allocatableRemainder r.1 (some 1) 1) = some 1 ∧
    (c4_after.bind (fun r => local_delete_sale 1 "2024-01-01T03:00:00.000Z" r.2 r.1)).toOption.map
      (fun r => r.1.sales.map (fun s => (s.id, s.is_return))) = some [(2, true)] ∧
    (c4_after.bind (fun r => local_update_sale
        { id := 1, qty := 1, unit_price := 10, customer_id := some 1,
          note := none, is_credit := false } "2024-01-01T03:00:00.000Z" r.2 r.1)).toOption.map
      (fun r => r.1.sales.map (fun s => (s.id, s.qty))) = some [(2, 2), (1, 1)] := by
  refine ⟨?_, ?_, ?_⟩
  · decide
  · decide
  · decide

/-- C5 (amended form): `local_record_sale` raises neither error.  A
product id that matches no product yields a silent no-op returning the
unchanged snapshot (no `ProductNotFound` failure), and a credit sale
without a customer is recorded normally — the sale is prepended and stock
clamped — except that no credit entry is created (no
`CustomerRequiredForCredit` failure). -/
theorem record_sale_never_rejects
    (pl pl2 : SalePayload) (now : String) (ids : IdCounters) (st : CanonicalState)
    (h1 : st.products.find? (fun p => p.id == pl.product_id) = none)
    (prod : Product)
    (h2 : st.products.find? (fun p => p.id == pl2.product_id) = some prod)
    (h3 : pl2.is_credit = true) (h4 : pl2.customer_id = none) :
    local_record_sale pl now ids st = .ok (st, ids) ∧
    ∃ st' ids' s, local_record_sale pl2 now ids st = .ok (st', ids') ∧
      st'.credits = st.credits ∧ st'.sales = s :: st.sales := by
  constructor
  · unfold local_record_sale
    rw [h1]
  · unfold local_record_sale
    simp only [h2, h3, h4]
    exact ⟨_, _, _, rfl, rfl, rfl⟩

/-- C5 (counterexample): `local_record_sale` with the unknown product id
returns `.ok` with the snapshot unchanged instead of failing with
`ProductNotFound`, and a credit sale without a customer returns `.ok`
having created the sale but no credit entry instead of failing with
`CustomerRequiredForCredit`. -/
theorem c5_counterexample :
    local_record_sale c5_missing "2024-01-02T00:00:00.000Z" c5_ids c5_state =
      .ok (c5_state, c5_ids) ∧
    (local_record_sale c5_credit_nocust "2024-01-02T00:00:00.000Z" c5_ids c5_state).toOption.map
      (fun r => (r.1.sales.length, r.1.credits.length)) = some (1, 0) := by
  constructor
  · rfl
  · decide

/-- C5 (witness): the amended theorem applied at the concrete fixture. -/
theorem c5_witness :
    local_record_sale c5_missing "2024-01-02T00:00:00.000Z" c5_ids c5_state =
      .ok (c5_state, c5_ids) ∧
    ∃ st' ids' s,
      local_record_sale c5_credit_nocust "2024-01-02T00:00:00.000Z" c5_ids c5_state =
        .ok (st', ids') ∧
      st'.credits = c5_state.credits ∧ st'.sales = s :: c5_state.sales :=
  record_sale_never_rejects c5_missing c5_credit_nocust "2024-01-02T00:00:00.000Z"
    c5_ids c5_state (by decide) c5_product (by decide) rfl rfl

/-- C10 (amended form): the silent no-op applies exactly to the guarded
lookup of each operation — the product for `local_record_sale`,
`local_record_return` and `local_record_stock_entry`, and the customer for
`local_record_credit_payment`: when that entity is missing the operation
returns the current snapshot unchanged and raises nothing. -/
theorem missing_guard_entity_silent_noop
    (sp : SalePayload) (rp : ReturnPayload) (ep : StockEntryPayload)
    (cp : CreditPaymentPayload) (now : String) (ids : IdCounters) (st : CanonicalState)
    (h1 : st.products.find? (fun p => p.id == sp.product_id) = none)
    (h2 : st.products.find? (fun p => p.id == rp.product_id) = none)
    (h3 : st.products.find? (fun p => p.id == ep.product_id) = none)
    (h4 : st.customers.find? (fun c => c.id == cp.customer_id) = none) :
    local_record_sale sp now ids st = .ok (st, ids) ∧
    local_record_return rp now ids st = .ok (st, ids) ∧
    local_record_stock_entry ep now ids st = .ok (st, ids) ∧
    local_record_credit_payment cp now ids st = .ok (st, ids) := by
  refine ⟨?_, ?_, ?_, ?_⟩
  · unfold local_record_sale
    rw [h1]
  · unfold local_record_return
    rw [h2]
  · unfold local_record_stock_entry
    rw [h3]
  · unfold local_record_credit_payment
    rw [h4]

/-- C10 (counterexample): an unknown customer id does NOT make
`local_record_sale` a no-op — with a valid product and customer_id 99
matching no stored customer, the sale is still recorded (one new sale with
a null customer-name snapshot), so the mutation happens. -/
theorem c10_counterexample :
    c5_state.customers.find? (fun c => c.id == 99) = none ∧
    c5_state.sales = [] ∧
    (local_record_sale c10_badcust "2024-01-02T00:00:00.000Z" c5_ids c5_state).toOption.map
      (fun r => (r.1.sales.length, r.1.sales.head?.map (fun s => s.customer_name))) =
      some (1, some none) := by
  refine ⟨?_, ?_, ?_⟩
  · decide
  · decide
  · decide

/-- C10 (witness): the amended theorem at a concrete state, with payloads
whose guarded entity is missing. -/
theorem c10_witness :
    local_record_sale c5_missing "2024-01-02T00:00:00.000Z" c5_ids c5_state =
      .ok (c5_state, c5_ids) ∧
    local_record_return
      { product_id := 99, customer_id := none, qty := 1, note := none,
        override_amount := none } "2024-01-02T00:00:00.000Z" c5_ids c5_state =
      .ok (c5_state, c5_ids) ∧
    local_record_stock_entry
      { product_id := 99, qty := 1, kind := some .IN, unit_price := none,
        counterparty := none, customer_id := none, note := none }
      "2024-01-02T00:00:00.000Z" c5_ids c5_state = .ok (c5_state, c5_ids) ∧
    local_record_credit_payment
      { customer_id := 7, amount := 100, note := none }
      "2024-01-02T00:00:00.000Z" c5_ids c5_state = .ok (c5_state, c5_ids) :=
  missing_guard_entity_silent_noop c5_missing
    { product_id := 99, customer_id := none, qty := 1, note := none,
      override_amount := none }
    { product_id := 99, qty := 1, kind := some .IN, unit_price := none,
      counterparty := none, customer_id := none, note := none }
    { customer_id := 7, amount := 100, note := none }
    "2024-01-02T00:00:00.000Z" c5_ids c5_state
    (by decide) (by decide) (by decide) (by decide)

/-- C9: when the qty increase requested by `local_update_sale` exceeds the
product's current stock, the operation throws (재고가 부족합니다 — "out of
stock") before any mutation, while `local_record_sale` itself never
rejects for insufficient stock and instead clamps the product's qty at 0. -/
theorem update_sale_rejects_insufficient_stock
    (payload : SaleUpdatePayload) (now : String) (ids : IdCounters) (st : CanonicalState)
    (sale : SaleRecord) (prod : Product)
    (hs : st.sales.find? (fun s => s.id == payload.id) = some sale)
    (hr : sale.is_return = false)
    (hnr : st.sales.any (fun s => s.is_return && s.origin_sale_id == some sale.id) = false)
    (hp : st.products.find? (fun p => p.id == sale.product_id) = some prod)
    (hq : sale.qty < payload.qty)
    (hstock : prod.qty < payload.qty - sale.qty)
    (pl2 : SalePayload) (prod2 : Product)
    (hp2 : st.products.find? (fun p => p.id == pl2.product_id) = some prod2)
    (hc2 : pl2.customer_id = none) :
    local_update_sale payload now ids st = .error "재고가 부족합니다." ∧
    ∃ st' ids', local_record_sale pl2 now ids st = .ok (st', ids') ∧
      st'.products.find? (fun p => p.id == pl2.product_id) =
        some { prod2 with qty := max (prod2.qty - pl2.qty) 0 } := by
  constructor
  · unfold local_update_sale
    rw [hs]
    simp [hr, hnr, hp, sub_pos.mpr hq, hstock]
  · have hpred := List.find?_some hp2
    have hfind := mutateFirst_find? (fun p => p.id == pl2.product_id)
      (fun p => { p with qty := max (p.qty - pl2.qty) 0 }) st.products prod2 hp2
      (by simpa using hpred)
    cases hic : pl2.is_credit with
    | true =>
      unfold local_record_sale
      simp only [hp2, hc2, hic]
      exact ⟨_, _, rfl, by simpa using hfind⟩
    | false =>
      unfold local_record_sale
      simp only [hp2, hc2, hic]
      exact ⟨_, _, rfl, by simpa using hfind⟩

/-- C9 (witness): the theorem at the concrete fixture — growing the sale
by 3 against a stock of 2 throws, while a fresh oversell of 99 clamps the
stock to 0. -/
theorem c9_witness :
    local_update_sale c9_upd "2024-01-02T00:00:00.000Z" c9_ids c9_state =
      .error "재고가 부족합니다." ∧
    ∃ st' ids',
      local_record_sale c9_sale_pl "2024-01-02T00:00:00.000Z" c9_ids c9_state =
        .ok (st', ids') ∧
      st'.products.find? (fun p => p.id == c9_sale_pl.product_id) =
        some { c9_product with qty := max (c9_product.qty - c9_sale_pl.qty) 0 } :=
  update_sale_rejects_insufficient_stock c9_upd "2024-01-02T00:00:00.000Z" c9_ids c9_state
    c9_sale c9_product (by decide) rfl (by decide) (by decide) (by decide) (by decide)
    c9_sale_pl c9_product (by decide) rfl

/-- C8: `local_delete_return` on an existing return (with its product
present) succeeds and: decreases the product's qty by the return's qty
floored at 0, removes every stock movement linked to the return's sale id,
removes the return row, keeps every pre-existing credit entry (in
particular the original settlement entry), and appends exactly one new
charge entry (`is_payment = false`) for the return's full total amount
precisely when the return has an attached customer. -/
theorem delete_return_effects
    (rid : Nat) (now : String) (ids : IdCounters) (st : CanonicalState)
    (ret : SaleRecord) (prod : Product)
    (hret : st.sales.find? (fun s => s.id == rid && s.is_return) = some ret)
    (hprod : st.products.find? (fun p => p.id == ret.product_id) = some prod) :
    ∃ st' ids', local_delete_return rid now ids st = .ok (st', ids') ∧
      st'.products.find? (fun p => p.id == ret.product_id) =
        some { prod with qty := max (prod.qty - ret.qty) 0 } ∧
      st'.stock_movements = st.stock_movements.filter (fun m => m.sale_id != some ret.id) ∧
      st'.sales = st.sales.filter (fun s => s.id != ret.id) ∧
      (∀ cr ∈ st.credits, cr ∈ st'.credits) ∧
      (match ret.customer_id with
       | some cid =>
         ∃ e, st'.credits = e :: st.credits ∧ e.is_payment = false ∧
           e.amount = ret.total_amount ∧ e.customer_id = cid
       | none => st'.credits = st.credits) := by
  have hpred := List.find?_some hprod
  have hfind := mutateFirst_find? (fun p => p.id == ret.product_id)
    (fun p => { p with qty := max (p.qty - ret.qty) 0 }) st.products prod hprod
    (by simpa using hpred)
  unfold local_delete_return
  cases hcid : ret.customer_id with
  | none =>
    simp only [hret, hcid]
    refine ⟨_, _, rfl, by simpa using hfind, rfl, rfl, fun cr h => h, rfl⟩
  | some cid =>
    simp only [hret, hcid]
    refine ⟨_, _, rfl, by simpa using hfind, rfl, rfl,
      fun cr h => List.mem_cons_of_mem _ h, ⟨_, rfl, rfl, rfl, rfl⟩⟩

/-- C8 (witness): the theorem at the concrete fixture — deleting return 2
floors the stock at 0 (3 − 5 → 0), removes the linked movement, keeps the
settlement entry and prepends a charge entry of the full 50. -/
theorem c8_witness :
    ∃ st' ids',
      local_delete_return 2 "2024-01-03T00:00:00.000Z" c8_ids c8_state = .ok (st', ids') ∧
      st'.products.find? (fun p => p.id == c8_return.product_id) =
        some { c8_product with qty := max (c8_product.qty - c8_return.qty) 0 } ∧
      st'.stock_movements =
        c8_state.stock_movements.filter (fun m => m.sale_id != some c8_return.id) ∧
      st'.sales = c8_state.sales.filter (fun s => s.id != c8_return.id) ∧
      (∀ cr ∈ c8_state.credits, cr ∈ st'.credits) ∧
      (match c8_return.customer_id with
       | some cid =>
         ∃ e, st'.credits = e :: c8_state.credits ∧ e.is_payment = false ∧
           e.amount = c8_return.total_amount ∧ e.customer_id = cid
       | none => st'.credits = c8_state.credits) :=
  delete_return_effects 2 "2024-01-03T00:00:00.000Z" c8_ids c8_state c8_return c8_product
    (by decide) (by decide)

/-- Every payment step floors upward, so the fold from any seed dominates
the exact running sum seed + charges − payments. -/
theorem foldl_creditFoldStep_ge (entries : List CreditEntry) :
    ∀ a : Rat, a + chargeTot entries - payTot entries ≤ entries.foldl creditFoldStep a := by
  induction entries with
  | nil => intro a; simp [chargeTot, payTot]
  | cons e es ih =>
    intro a
    rw [List.foldl_cons]
    by_cases hpay : e.is_payment
    · have h1 : a - e.amount ≤ creditFoldStep a e := by
        simp only [creditFoldStep, hpay, if_true, ite_true]
        exact le_max_left _ _
      have h2 := ih (creditFoldStep a e)
      have hct : chargeTot (e :: es) = chargeTot es := by
        simp [chargeTot, hpay]
      have hpt : payTot (e :: es) = e.amount + payTot es := by
        simp [payTot, hpay]
      rw [hct, hpt]
      linarith
    · have h1 : creditFoldStep a e = a + e.amount := by
        simp [creditFoldStep, hpay]
      have h2 := ih (creditFoldStep a e)
      have hct : chargeTot (e :: es) = e.amount + chargeTot es := by
        simp [chargeTot, hpay]
      have hpt : payTot (e :: es) = payTot es := by
        simp [payTot, hpay]
      rw [hct, hpt, h1] at *
      linarith

/-- With nonnegative amounts the running fold value never goes negative. -/
theorem foldl_creditFoldStep_nonneg (entries : List CreditEntry) :
    ∀ a : Rat, 0 ≤ a → (∀ e ∈ entries, 0 ≤ e.amount) →
      0 ≤ entries.foldl creditFoldStep a := by
  induction entries with
  | nil => intro a ha _; simpa using ha
  | cons e es ih =>
    intro a ha h
    rw [List.foldl_cons]
    apply ih
    · by_cases hpay : e.is_payment
      · simp only [creditFoldStep, hpay, if_true, ite_true]
        exact le_max_right _ _
      · simp only [creditFoldStep, hpay, Bool.false_eq_true, if_false, ite_false]
        exact add_nonneg ha (h e (by simp))
    · intro x hx
      exact h x (by simp [hx])

/-- C7 (amended form): for every per-customer history of positive-amount
entries, the terminal value of the chronological floored fold
(`creditOutstandingById`'s inner loop) is greater than or equal to the
aggregate max(Σcharges − Σpayments, 0) used by `computeBalances` — the two
computations agree only when no payment overshoots; in general the fold
can be strictly larger, so they do not always agree. -/
theorem foldOutstanding_ge_aggregate (entries : List CreditEntry)
    (h : ∀ e ∈ entries, 0 ≤ e.amount) :
    max (chargeTot entries - payTot entries) 0 ≤ foldOutstanding entries := by
  unfold foldOutstanding
  apply max_le
  · simpa using foldl_creditFoldStep_ge entries 0
  · exact foldl_creditFoldStep_nonneg entries 0 le_rfl h

/-- C7 (counterexample): for the history charge 5 → payment 10 → charge 5
the fold yields 5 (the over-payment is clipped at 0) while the
aggregate-sum balance of `computeBalances` yields max(10 − 10, 0) = 0, so
the two computations disagree. -/
theorem c7_counterexample :
    foldOutstanding [c7_e1, c7_e2, c7_e3] = 5 ∧
    (computeBalances c7_state).map (fun b => b.outstanding) = [0] ∧
    (5 : Rat) ≠ 0 := by
  refine ⟨?_, ?_, ?_⟩
  · decide
  · decide
  · decide

/-- C7 (witness): the amended inequality at the concrete history
(5 ≥ max(10 − 10, 0) = 0). -/
theorem c7_witness :
    max (chargeTot [c7_e1, c7_e2, c7_e3] - payTot [c7_e1, c7_e2, c7_e3]) 0 ≤
      foldOutstanding [c7_e1, c7_e2, c7_e3] :=
  foldOutstanding_ge_aggregate [c7_e1, c7_e2, c7_e3]
    (by intro e he; fin_cases he <;> decide)

/-- `Map.get` after `Map.set`: the set key reads back the new value, other
keys are untouched. -/
theorem msGet?_msSet (m : List (Nat × CustomerBalance)) (k k' : Nat) (v : CustomerBalance) :
    msGet? (msSet m k v) k' = if k' = k then some v else msGet? m k' := by
  induction m with
  | nil =>
    by_cases h : k' = k
    · simp [msSet, msGet?, h]
    · simp [msSet, msGet?, h, Ne.symm h]
  | cons kv rest ih =>
    by_cases hk : kv.1 = k
    · by_cases h : k' = k
      · simp [msSet, msGet?, hk, h]
      · simp only [msSet, hk, beq_self_eq_true, if_true, ite_true, msGet?, if_neg h]
        rw [List.find?_cons_of_neg _ (by simp [Ne.symm h])]
        rw [List.find?_cons_of_neg _ (by simp [hk, Ne.symm h])]
    · simp only [msSet, beq_iff_eq, hk, if_false, ite_false]
      by_cases h2 : kv.1 = k'
      · simp only [msGet?]
        rw [List.find?_cons_of_pos _ (by simp [h2]), List.find?_cons_of_pos _ (by simp [h2])]
        have : ¬ k' = k := by rw [← h2]; exact fun hh => hk (hh ▸ rfl)
        simp [this]
      · simp only [msGet?] at ih ⊢
        rw [List.find?_cons_of_neg _ (by simp [h2]), List.find?_cons_of_neg _ (by simp [h2])]
        exact ih

/-- A `msGet?` hit means the key is among the stored keys. -/
theorem msGet?_mem_keys (m : List (Nat × CustomerBalance)) (k : Nat) (e : CustomerBalance)
    (h : msGet? m k = some e) : k ∈ m.map (fun kv => kv.1) := by
  unfold msGet? at h
  cases hf : m.find? (fun kv => kv.1 == k) with
  | none => rw [hf] at h; simp at h
  | some kv =>
    have hm := List.mem_of_find?_eq_some hf
    have hp := List.find?_some hf
    have : kv.1 = k := by simpa using hp
    rw [← this]
    exact List.mem_map_of_mem _ hm

/-- One credit step read back at any key: the entry's customer is updated
by `applyCredit`, every other key is untouched. -/
theorem creditStep_get (m : List (Nat × CustomerBalance)) (cr : CreditEntry) (k : Nat) :
    msGet? (creditStep m cr) k =
      if cr.customer_id = k then (msGet? m k).map (fun e => applyCredit e cr)
      else msGet? m k := by
  unfold creditStep
  cases h : msGet? m cr.customer_id with
  | none =>
    by_cases hk : cr.customer_id = k
    · rw [if_pos hk, ← hk, h]; rfl
    · rw [if_neg hk]
  | some e =>
    rw [msGet?_msSet]
    by_cases hk : cr.customer_id = k
    · rw [if_pos hk.symm, if_pos hk, ← hk, h]; rfl
    · rw [if_neg (fun hh => hk hh.symm), if_neg hk]

/-- Folding the whole credit history: each key accumulates exactly its
customer's entries, in order. -/
theorem foldl_creditStep_get (crs : List CreditEntry) :
    ∀ (m : List (Nat × CustomerBalance)) (k : Nat),
    msGet? (crs.foldl creditStep m) k =
      (msGet? m k).map
        (fun e => (crs.filter (fun cr => cr.customer_id == k)).foldl applyCredit e) := by
  induction crs with
  | nil =>
    intro m k
    rw [List.foldl_nil, List.filter_nil]
    cases msGet? m k <;> simp
  | cons cr crs ih =>
    intro m k
    rw [List.foldl_cons, ih (creditStep m cr) k, creditStep_get]
    by_cases hk : cr.customer_id = k
    · rw [if_pos hk, List.filter_cons_of_pos (by simp [hk])]
      cases msGet? m k <;> simp
    · rw [if_neg hk, List.filter_cons_of_neg (by simp [hk])]

/-- `applyCredit` adds a charge's amount to `total_credit` and leaves it
alone for payments. -/
theorem applyCredit_total_credit (e : CustomerBalance) (cr : CreditEntry) :
    (applyCredit e cr).total_credit =
      if cr.is_payment then e.total_credit else e.total_credit + cr.amount := by
  unfold applyCredit
  by_cases hp : cr.is_payment <;> simp only [hp] <;> split <;> try split
  all_goals simp

/-- `applyCredit` adds a payment's amount to `total_paid` and leaves it
alone for charges. -/
theorem applyCredit_total_paid (e : CustomerBalance) (cr : CreditEntry) :
    (applyCredit e cr).total_paid =
      if cr.is_payment then e.total_paid + cr.amount else e.total_paid := by
  unfold applyCredit
  by_cases hp : cr.is_payment <;> simp only [hp] <;> split <;> try split
  all_goals simp

/-- `applyCredit` never touches the identity fields. -/
theorem applyCredit_customer_id (e : CustomerBalance) (cr : CreditEntry) :
    (applyCredit e cr).customer_id = e.customer_id := by
  unfold applyCredit
  by_cases hp : cr.is_payment <;> simp only [hp] <;> split <;> try split
  all_goals simp

/-- Folding a customer's entries accumulates exactly the charge sum. -/
theorem foldl_applyCredit_total_credit (es : List CreditEntry) :
    ∀ e : CustomerBalance, (es.foldl applyCredit e).total_credit = e.total_credit + chargeTot es := by
  induction es with
  | nil => intro e; simp [chargeTot]
  | cons x es ih =>
    intro e
    rw [List.foldl_cons, ih (applyCredit e x), applyCredit_total_credit]
    by_cases hp : x.is_payment
    · have : chargeTot (x :: es) = chargeTot es := by simp [chargeTot, hp]
      rw [this, if_pos hp]
    · have : chargeTot (x :: es) = x.amount + chargeTot es := by simp [chargeTot, hp]
      rw [this, if_neg hp]
      ring

/-- Folding a customer's entries accumulates exactly the payment sum. -/
theorem foldl_applyCredit_total_paid (es : List CreditEntry) :
    ∀ e : CustomerBalance, (es.foldl applyCredit e).total_paid = e.total_paid + payTot es := by
  induction es with
  | nil => intro e; simp [payTot]
  | cons x es ih =>
    intro e
    rw [List.foldl_cons, ih (applyCredit e x), applyCredit_total_paid]
    by_cases hp : x.is_payment
    · have : payTot (x :: es) = x.amount + payTot es := by simp [payTot, hp]
      rw [this, if_pos hp]
      ring
    · have : payTot (x :: es) = payTot es := by simp [payTot, hp]
      rw [this, if_neg hp]

/-- Folding never touches the identity fields. -/
theorem foldl_applyCredit_customer_id (es : List CreditEntry) :
    ∀ e : CustomerBalance, (es.foldl applyCredit e).customer_id = e.customer_id := by
  induction es with
  | nil => intro e; rfl
  | cons x es ih =>
    intro e
    rw [List.foldl_cons, ih (applyCredit e x), applyCredit_customer_id]

/-- Keys after `msSet`: possibly only the set key is new. -/
theorem msSet_keys_subset (m : List (Nat × CustomerBalance)) (k : Nat) (v : CustomerBalance) :
    ∀ x ∈ (msSet m k v).map (fun kv => kv.1), x ∈ m.map (fun kv => kv.1) ∨ x = k := by
  induction m with
  | nil => intro x hx; simp [msSet] at hx; exact Or.inr hx
  | cons kv rest ih =>
    intro x hx
    by_cases hk : kv.1 = k
    · simp only [msSet, hk, beq_self_eq_true, if_true, ite_true] at hx
      simp only [List.map_cons, List.mem_cons] at hx ⊢
      rcases hx with rfl | hx
      · exact Or.inr rfl
      · exact Or.inl (Or.inr hx)
    · simp only [msSet, beq_iff_eq, hk, if_false, ite_false] at hx
      simp only [List.map_cons, List.mem_cons] at hx ⊢
      rcases hx with rfl | hx
      · exact Or.inl (Or.inl rfl)
      · rcases ih x hx with h | h
        · exact Or.inl (Or.inr h)
        · exact Or.inr h

/-- `msSet` keeps the key list duplicate-free. -/
theorem msSet_keys_nodup (m : List (Nat × CustomerBalance)) (k : Nat) (v : CustomerBalance)
    (h : (m.map (fun kv => kv.1)).Nodup) : ((msSet m k v).map (fun kv => kv.1)).Nodup := by
  induction m with
  | nil => simp [msSet]
  | cons kv rest ih =>
    rw [List.map_cons, List.nodup_cons] at h
    by_cases hk : kv.1 = k
    · simp only [msSet, hk, beq_self_eq_true, if_true, ite_true, List.map_cons, List.nodup_cons]
      exact ⟨hk ▸ h.1, h.2⟩
    · simp only [msSet, beq_iff_eq, hk, if_false, ite_false, List.map_cons, List.nodup_cons]
      refine ⟨fun hmem => ?_, ih h.2⟩
      rcases msSet_keys_subset rest k v kv.1 hmem with hh | hh
      · exact h.1 hh
      · exact hk hh

/-- Setting an existing key leaves the key list unchanged. -/
theorem msSet_keys_of_mem (m : List (Nat × CustomerBalance)) (k : Nat) (v : CustomerBalance)
    (h : k ∈ m.map (fun kv => kv.1)) :
    (msSet m k v).map (fun kv => kv.1) = m.map (fun kv => kv.1) := by
  induction m with
  | nil => simp at h
  | cons kv rest ih =>
    by_cases hk : kv.1 = k
    · simp [msSet, hk]
    · simp only [List.map_cons, List.mem_cons] at h
      rcases h with h | h
      · exact absurd h.symm hk
      · simp [msSet, beq_iff_eq, hk, ih h]

/-- One credit step never changes the key list. -/
theorem creditStep_keys (m : List (Nat × CustomerBalance)) (cr : CreditEntry) :
    (creditStep m cr).map (fun kv => kv.1) = m.map (fun kv => kv.1) := by
  unfold creditStep
  cases h : msGet? m cr.customer_id with
  | none => rfl
  | some e => exact msSet_keys_of_mem m cr.customer_id (applyCredit e cr) (msGet?_mem_keys m _ e h)

/-- Folding the credit history never changes the key list. -/
theorem foldl_creditStep_keys (crs : List CreditEntry) :
    ∀ m : List (Nat × CustomerBalance),
    ((crs.foldl creditStep m).map (fun kv => kv.1)) = m.map (fun kv => kv.1) := by
  induction crs with
  | nil => intro m; rfl
  | cons cr crs ih =>
    intro m
    rw [List.foldl_cons, ih (creditStep m cr), creditStep_keys]

/-- Seeding customers whose ids all differ from `k` leaves key `k`'s
binding unchanged. -/
theorem foldl_seed_get_of_not_mem (cs : List Customer) :
    ∀ (m : List (Nat × CustomerBalance)) (k : Nat), (∀ c ∈ cs, c.id ≠ k) →
    msGet? (cs.foldl (fun m c => msSet m c.id (initBal c)) m) k = msGet? m k := by
  induction cs with
  | nil => intro m k _; rfl
  | cons c cs ih =>
    intro m k h
    rw [List.foldl_cons, ih _ k (fun c' hc' => h c' (by simp [hc'])), msGet?_msSet]
    rw [if_neg (fun hh => h c (by simp) hh.symm)]

/-- With duplicate-free customer ids, the seeded map binds every
customer's id to its fresh balance row. -/
theorem foldl_seed_get (cs : List Customer) :
    ∀ (m : List (Nat × CustomerBalance)) (c : Customer), c ∈ cs →
    (cs.map (fun c => c.id)).Nodup →
    msGet? (cs.foldl (fun m c => msSet m c.id (initBal c)) m) c.id = some (initBal c) := by
  induction cs with
  | nil => intro m c hc; simp at hc
  | cons c0 cs ih =>
    intro m c hc hnd
    rw [List.map_cons, List.nodup_cons] at hnd
    rw [List.foldl_cons]
    rcases List.mem_cons.mp hc with rfl | hc2
    · rw [foldl_seed_get_of_not_mem cs _ c.id
        (fun c' hc' hh => hnd.1 (hh ▸ List.mem_map_of_mem _ hc'))]
      rw [msGet?_msSet, if_pos rfl]
    · exact ih _ c hc2 hnd.2

/-- Every key of the seeded map is some listed customer's id. -/
theorem foldl_seed_keys (cs : List Customer) :
    ∀ (m : List (Nat × CustomerBalance)) (k : Nat),
    k ∈ ((cs.foldl (fun m c => msSet m c.id (initBal c)) m).map (fun kv => kv.1)) →
    k ∈ m.map (fun kv => kv.1) ∨ ∃ c ∈ cs, c.id = k := by
  induction cs with
  | nil => intro m k h; exact Or.inl h
  | cons c0 cs ih =>
    intro m k h
    rw [List.foldl_cons] at h
    rcases ih _ k h with h2 | h2
    · rcases msSet_keys_subset m c0.id (initBal c0) k h2 with h3 | h3
      · exact Or.inl h3
      · exact Or.inr ⟨c0, by simp, h3.symm⟩
    · obtain ⟨c, hc, hck⟩ := h2
      exact Or.inr ⟨c, by simp [hc], hck⟩

/-- The seeded map's key list is duplicate-free. -/
theorem foldl_seed_keys_nodup (cs : List Customer) :
    ∀ m : List (Nat × CustomerBalance), ((m.map (fun kv => kv.1)).Nodup) →
    (((cs.foldl (fun m c => msSet m c.id (initBal c)) m)).map (fun kv => kv.1)).Nodup := by
  induction cs with
  | nil => intro m h; exact h
  | cons c0 cs ih =>
    intro m h
    rw [List.foldl_cons]
    exact ih _ (msSet_keys_nodup m c0.id (initBal c0) h)

/-- In a map with duplicate-free keys, membership determines the lookup. -/
theorem msGet?_of_mem (m : List (Nat × CustomerBalance))
    (hnd : (m.map (fun kv => kv.1)).Nodup) (kv : Nat × CustomerBalance) (hkv : kv ∈ m) :
    msGet? m kv.1 = some kv.2 := by
  induction m with
  | nil => simp at hkv
  | cons kv0 rest ih =>
    rw [List.map_cons, List.nodup_cons] at hnd
    rcases List.mem_cons.mp hkv with rfl | h2
    · unfold msGet?
      rw [List.find?_cons_of_pos _ (by simp)]
      rfl
    · have hne : kv0.1 ≠ kv.1 :=
        fun hh => hnd.1 (hh ▸ List.mem_map_of_mem _ h2)
      unfold msGet?
      rw [List.find?_cons_of_neg _ (by simp [hne])]
      exact ih hnd.2 h2

/-- C6: for every state whose customer ids are duplicate-free, every row
produced by `computeBalances` satisfies
`outstanding = max(total_credit − total_paid, 0)`, where `total_credit`
and `total_paid` are exactly the sums of that customer's charge and
payment entry amounts; the row is a pure function of the current credit
history (the computation reads nothing but `st.customers` and
`st.credits`). -/
theorem computeBalances_spec (st : CanonicalState)
    (hnd : (st.customers.map (fun c => c.id)).Nodup) :
    ∀ b ∈ computeBalances st,
      b.outstanding = max (b.total_credit - b.total_paid) 0 ∧
      ∃ c ∈ st.customers, c.id = b.customer_id ∧
        b.total_credit = chargeSum st.credits c.id ∧
        b.total_paid = paySum st.credits c.id := by
  intro b hb
  have hb' : b ∈ (st.credits.foldl creditStep
      (st.customers.foldl (fun m c => msSet m c.id (initBal c)) [])).map
      (fun kv => { kv.2 with outstanding := max (kv.2.total_credit - kv.2.total_paid) 0 }) := hb
  obtain ⟨kv, hkv, hbeq⟩ := List.mem_map.mp hb'
  subst hbeq
  refine ⟨rfl, ?_⟩
  have hkey : kv.1 ∈ (st.credits.foldl creditStep
      (st.customers.foldl (fun m c => msSet m c.id (initBal c)) [])).map (fun kv => kv.1) :=
    List.mem_map_of_mem _ hkv
  rw [foldl_creditStep_keys] at hkey
  rcases foldl_seed_keys st.customers [] kv.1 hkey with h | ⟨c, hc, hck⟩
  · simp at h
  have hnodup : ((st.credits.foldl creditStep
      (st.customers.foldl (fun m c => msSet m c.id (initBal c)) [])).map
      (fun kv => kv.1)).Nodup := by
    rw [foldl_creditStep_keys]
    exact foldl_seed_keys_nodup st.customers [] (by simp)
  have hget := msGet?_of_mem _ hnodup kv hkv
  rw [foldl_creditStep_get, ← hck, foldl_seed_get st.customers [] c hc hnd] at hget
  have hkv2 : (st.credits.filter (fun cr => cr.customer_id == c.id)).foldl
      applyCredit (initBal c) = kv.2 := by
    simpa using hget
  refine ⟨c, hc, ?_, ?_, ?_⟩
  · show c.id = kv.2.customer_id
    rw [← hkv2, foldl_applyCredit_customer_id]
    rfl
  · show kv.2.total_credit = chargeSum st.credits c.id
    rw [← hkv2, foldl_applyCredit_total_credit]
    simp [initBal, chargeSum]
  · show kv.2.total_paid = paySum st.credits c.id
    rw [← hkv2, foldl_applyCredit_total_paid]
    simp [initBal, paySum]

/-- C6 (witness): the theorem at the concrete state — the computed row has
outstanding 20 = max(30 − 10, 0), with the totals equal to the charge and
payment sums of customer 1's history. -/
theorem c6_witness :
    computeBalances c6_state = [c6_bal] ∧
    (c6_bal.outstanding = max (c6_bal.total_credit - c6_bal.total_paid) 0 ∧
     ∃ c ∈ c6_state.customers, c.id = c6_bal.customer_id ∧
       c6_bal.total_credit = chargeSum c6_state.credits c.id ∧
       c6_bal.total_paid = paySum c6_state.credits c.id) :=
  ⟨by decide,
    computeBalances_spec c6_state (by decide) c6_bal
      (by
        have h : computeBalances c6_state = [c6_bal] := by decide
        rw [h]
        exact List.mem_singleton.mpr rfl)⟩

end Proofs
